import Mathlib

/-!
Verification development for the AEM component-builder agent
(`src/ai_agent.py`, `src/ai_agent_new.py`, `src/ai_agent_new_2.py`,
`src/ai_agent_new_4.py`).

The Python sources are shallowly embedded as executable Lean definitions:

* strings are embedded as `String` (queries, messages) or as `List Char`
  (source texts that get sliced), Python slices via `List.drop`/`List.take`;
* the Chroma collection is embedded as an explicit list of entries, the
  `collection.query` call as an oracle `String → Nat → Except String
  (List String)` returning `documents[0]` of the query result (the ranked
  document list), an exception being the `Except.error` case;
* every side-effecting call site (`collection.query`, the generator call)
  is additionally recorded in an explicit log so that "such a query was
  issued" is a statement about the embedding;
* `print` calls are ignored (pure logging).

Known benign divergences, none load-bearing for any theorem below:
`String.toLower`/`Char.isWhitespace` are ASCII-faithful approximations of
Python `str.lower`/`str.strip`, and Python `set` iteration order (used only
to phrase one query string) is modelled as first-occurrence order.
-/

set_option maxRecDepth 8192

namespace AEMAgent

/-! ### Document Indexer (`build_or_load_chroma`, src/ai_agent.py lines 38-68) -/

/-- `CHUNK_SIZE = 800` / the local `chunk_size = 800` of `build_or_load_chroma`. -/
def chunk_size : Nat := 800

/-- The local `overlap = 100` of `build_or_load_chroma`. -/
def overlap : Nat := 100

/-- Python `range(start, stop, step)` for a positive `step`:
the ascending arithmetic progression from `start`, strictly below `stop`. -/
def pyRange (start stop step : Nat) : List Nat :=
  if step = 0 then []
  else (List.range ((stop - start + step - 1) / step)).map (fun k => start + step * k)

/-- Python slice `l[i : i+n]` on a list. -/
def pySlice (l : List Char) (i n : Nat) : List Char := (l.drop i).take n

/-- `chunks = [text[i:i+chunk_size] for i in range(0, len(text), chunk_size - overlap)]`
(src/ai_agent.py line 58). -/
def chunksOf (text : List Char) : List (List Char) :=
  (pyRange 0 text.length (chunk_size - overlap)).map (fun i => pySlice text i chunk_size)

/-- One document of the Chroma collection: the chunk text, its `source`
metadata tag, and its id string. -/
structure Entry where
  doc : List Char
  source : String
  id : String
deriving DecidableEq, Repr

/-- The entries inserted for one source file: chunk `i` with id `f"{name}_{i}"`
(src/ai_agent.py lines 60-65). -/
def sourceEntries (name : String) (text : List Char) : List Entry :=
  (chunksOf text).enum.map (fun p => ⟨p.2, name, name ++ "_" ++ toString p.1⟩)

/-- `build_or_load_chroma` (src/ai_agent.py lines 38-68) over an explicit
collection state.  `sources` is `files_map` resolved against the file system:
`none` stands for a missing file (`os.path.exists` false, source skipped),
`some text` for the file's content.  If the collection already has entries it
is returned unchanged; otherwise each present source is chunked and appended. -/
def build_or_load_chroma (c : List Entry)
    (sources : List (String × Option (List Char))) : List Entry :=
  if 0 < c.length then c
  else
    sources.foldl (fun acc s =>
      match s.2 with
      | none => acc
      | some text => acc ++ sourceEntries s.1 text) c

/-! ### Helper lemmas about the chunking -/

theorem chunksOf_eq (text : List Char) :
    chunksOf text =
      (List.range ((text.length + 699) / 700)).map
        (fun k => (text.drop (700 * k)).take 800) := by
  simp [chunksOf, pyRange, pySlice, chunk_size, overlap]

theorem chunksOf_length (text : List Char) :
    (chunksOf text).length = (text.length + 699) / 700 := by
  simp [chunksOf_eq]

theorem chunksOf_getD (text : List Char) (i : Nat)
    (h : i < (text.length + 699) / 700) :
    (chunksOf text).getD i [] = (text.drop (700 * i)).take 800 := by
  rw [chunksOf_eq]
  rw [List.getD_eq_getElem?_getD, List.getElem?_map, List.getElem?_range h]
  rfl

theorem chunksOf_getD_length (text : List Char) (i : Nat)
    (h : i < (text.length + 699) / 700) :
    ((chunksOf text).getD i []).length = min 800 (text.length - 700 * i) := by
  rw [chunksOf_getD text i h]
  simp [List.length_take, List.length_drop]

theorem ceil700_mul_le (L : Nat) : 700 * ((L + 699) / 700) ≤ L + 699 := by
  have := Nat.div_mul_le_self (L + 699) 700
  omega

theorem le_ceil700_mul (L : Nat) : L ≤ 700 * ((L + 699) / 700) := by
  have h1 := Nat.div_add_mod (L + 699) 700
  have h2 : (L + 699) % 700 < 700 := Nat.mod_lt _ (by omega)
  omega

/-- C1 counterexample: on a source text of 750 characters,
`build_or_load_chroma`'s chunking produces two chunks, and the first chunk —
which is not the last one — has length 750, not 800.  So the claim "every
chunk except possibly the last has length exactly 800" is false. -/
theorem claim_C1_counterexample :
    (chunksOf (List.replicate 750 'a')).length = 2 ∧
    ((chunksOf (List.replicate 750 'a')).getD 0 []).length = 750 ∧
    ¬ ∀ l ∈ (chunksOf (List.replicate 750 'a')).dropLast, l.length = 800 := by
  decide

/-- C1 as amended: for every source text of length `L > 0`, the chunking of
`build_or_load_chroma` produces `⌈L/700⌉` chunks; chunk `i` starts at offset
`i*(C-O) = 700*i` (with `C = 800`, `O = 100`) and covers
`text[i*700 : i*700+800]`; chunk `i` has length `min 800 (L - 700*i)`, so
every chunk except possibly the last TWO has length exactly 800 and the last
chunk has length `L - 700*(n-1)`; and the chunks cover the full text with no
gap: character `j` of the text appears in chunk `j / 700` at offset `j % 700`. -/
theorem claim_C1_amended (text : List Char) (hL : 0 < text.length) :
    (chunksOf text).length = (text.length + 699) / 700 ∧
    (∀ i, i < (text.length + 699) / 700 →
      (chunksOf text).getD i [] = (text.drop (700 * i)).take 800) ∧
    (∀ i, i < (text.length + 699) / 700 →
      ((chunksOf text).getD i []).length = min 800 (text.length - 700 * i)) ∧
    (∀ i, i + 2 < (text.length + 699) / 700 →
      ((chunksOf text).getD i []).length = 800) ∧
    ((chunksOf text).getD ((text.length + 699) / 700 - 1) []).length =
      text.length - 700 * ((text.length + 699) / 700 - 1) ∧
    (∀ j, j < text.length →
      j / 700 < (text.length + 699) / 700 ∧
      j - 700 * (j / 700) < ((chunksOf text).getD (j / 700) []).length ∧
      ((chunksOf text).getD (j / 700) []).getD (j - 700 * (j / 700)) 'A' =
        text.getD j 'A') := by
  have hup := ceil700_mul_le text.length
  have hlo := le_ceil700_mul text.length
  refine ⟨chunksOf_length text, fun i hi => chunksOf_getD text i hi, ?_, ?_, ?_, ?_⟩
  · exact fun i hi => chunksOf_getD_length text i hi
  · intro i hi
    rw [chunksOf_getD_length text i (by omega)]
    omega
  · rw [chunksOf_getD_length text _ (by omega)]
    omega
  · intro j hj
    have hdiv : j / 700 < (text.length + 699) / 700 := by omega
    have hlen := chunksOf_getD_length text (j / 700) hdiv
    have h800 : j - 700 * (j / 700) < 800 := by omega
    have hrem : j - 700 * (j / 700) < text.length - 700 * (j / 700) := by omega
    have hmem : j - 700 * (j / 700) < ((chunksOf text).getD (j / 700) []).length := by
      rw [hlen]
      exact lt_min h800 hrem
    refine ⟨hdiv, hmem, ?_⟩
    rw [chunksOf_getD text (j / 700) hdiv]
    rw [List.getD_eq_getElem?_getD, List.getD_eq_getElem?_getD]
    rw [List.getElem?_take_of_lt h800, List.getElem?_drop]
    have hix : 700 * (j / 700) + (j - 700 * (j / 700)) = j := by omega
    rw [hix]

/-- Witness for `claim_C1_amended` at the concrete three-character text
`['a','b','c']`: the hypothesis `0 < length` holds and the amended statement
yields a single chunk of length 3. -/
theorem claim_C1_witness :
    (chunksOf ['a', 'b', 'c']).length = 1 := by
  have h := claim_C1_amended ['a', 'b', 'c'] (by decide)
  exact h.1

/-! ### C2: idempotent indexing -/

/-- The entries contributed by a whole source list (missing files skipped). -/
def allSourceEntries (sources : List (String × Option (List Char))) : List Entry :=
  sources.foldr (fun s r =>
    (match s.2 with
     | none => []
     | some text => sourceEntries s.1 text) ++ r) []

theorem build_fold_eq (sources : List (String × Option (List Char)))
    (acc : List Entry) :
    sources.foldl (fun acc s =>
      match s.2 with
      | none => acc
      | some text => acc ++ sourceEntries s.1 text) acc =
    acc ++ allSourceEntries sources := by
  induction sources generalizing acc with
  | nil => simp [allSourceEntries]
  | cons s rest ih =>
    rw [List.foldl_cons]
    cases h : s.2 with
    | none => simp [h, ih, allSourceEntries, List.foldr_cons]
    | some text => simp [h, ih, allSourceEntries, List.foldr_cons]

theorem build_or_load_of_empty (c : List Entry)
    (sources : List (String × Option (List Char))) (hc : c.length = 0) :
    build_or_load_chroma c sources = c ++ allSourceEntries sources := by
  rw [build_or_load_chroma, if_neg (by omega), build_fold_eq]

/-- C2: if the collection already contains at least one chunk,
`build_or_load_chroma` returns it unchanged without adding anything; and a
second call with the identical sources leaves `count()` unchanged. -/
theorem claim_C2_idempotent (c : List Entry)
    (sources : List (String × Option (List Char))) :
    (0 < c.length → build_or_load_chroma c sources = c) ∧
    (build_or_load_chroma (build_or_load_chroma c sources) sources).length =
      (build_or_load_chroma c sources).length := by
  constructor
  · intro hc
    rw [build_or_load_chroma, if_pos hc]
  · by_cases hc : 0 < c.length
    · have he : build_or_load_chroma c sources = c := by
        rw [build_or_load_chroma, if_pos hc]
      simp [he]
    · have hc0 : c.length = 0 := by omega
      rw [build_or_load_of_empty c sources hc0]
      by_cases hF : 0 < (c ++ allSourceEntries sources).length
      · have he : build_or_load_chroma (c ++ allSourceEntries sources) sources =
            c ++ allSourceEntries sources := by
          rw [build_or_load_chroma, if_pos hF]
        rw [he]
      · have hF0 : (c ++ allSourceEntries sources).length = 0 := by omega
        rw [build_or_load_of_empty _ sources hF0]
        simp only [List.length_append] at *
        omega

/-- Witness for `claim_C2_idempotent` at a concrete one-entry collection and a
concrete source list: the already-populated collection is returned unchanged
and the count is stable under a second call. -/
theorem claim_C2_witness :
    build_or_load_chroma [⟨['x'], "dialog_template", "dialog_template_0"⟩]
        [("dialog_template", some ['a', 'b'])] =
      [⟨['x'], "dialog_template", "dialog_template_0"⟩] ∧
    (build_or_load_chroma
        (build_or_load_chroma [⟨['x'], "dialog_template", "dialog_template_0"⟩]
          [("dialog_template", some ['a', 'b'])])
        [("dialog_template", some ['a', 'b'])]).length =
      (build_or_load_chroma [⟨['x'], "dialog_template", "dialog_template_0"⟩]
        [("dialog_template", some ['a', 'b'])]).length := by
  have h := claim_C2_idempotent
    [⟨['x'], "dialog_template", "dialog_template_0"⟩]
    [("dialog_template", some ['a', 'b'])]
  exact ⟨h.1 (by decide), h.2⟩

/-! ### Shared data model of the retrieval layer -/

/-- A user-added field descriptor, the dicts held in `fields_data`:
`{"type": ..., "name": ..., "label": ...}`. -/
structure Field where
  type : String
  name : String
  label : String
deriving DecidableEq, Repr

/-- Label for the five query sites of `retrieve_targeted_context`
(dialog, sling, htl, field-examples, js-validation). -/
inductive Domain where
  | dialog
  | sling
  | htl
  | fields
  | js
deriving DecidableEq, Repr

/-- A record of one `collection.query(query_texts=[text], n_results=k)` call. -/
structure IssuedQuery where
  domain : Domain
  text : String
  k : Nat
deriving DecidableEq, Repr

/-- The Similarity Index collaborator: `query(text, k)` returns the ranked
document list `results["documents"][0]`, or raises (`Except.error` carries
the exception message). -/
abbrev QOracle := String → Nat → Except String (List String)

/-- The `all_retrieved` dict of `retrieve_targeted_context`
(src/ai_agent.py lines 97-103 and src/ai_agent_new.py lines 96-102). -/
structure Bundle where
  dialog_context : String
  sling_context : String
  htl_context : String
  js_context : String
  fields_context : String
deriving DecidableEq, Repr

/-- The all-empty bundle, both the initial dict value and the dict returned
from the `except` handler. -/
def emptyBundle : Bundle := ⟨"", "", "", "", ""⟩

/-- `"\n\n".join(docs) if docs else ""`; the conditional is the identity since
joining an empty list already yields the empty string. -/
def joinDocs (docs : List String) : String := String.intercalate "\n\n" docs

/-- Python `str.lower()` (ASCII-faithful), written over the character list so
that it evaluates by kernel reduction. -/
def pyLower (s : String) : String := String.mk (s.toList.map Char.toLower)

/-- `needle.isPrefixOf hay` on character lists. -/
def isPrefixAt (needle hay : List Char) : Bool := List.isPrefixOf needle hay

/-- Substring containment on character lists (scan every suffix). -/
def containsSub (needle : List Char) : List Char → Bool
  | [] => needle.isEmpty
  | h :: t => isPrefixAt needle (h :: t) || containsSub needle t

/-- Python `needle in hay` on strings: substring containment. -/
def pyIn (needle hay : String) : Bool := containsSub needle.toList hay.toList

/-! ### Multi-Query Retriever of src/ai_agent.py (`retrieve_targeted_context`,
lines 91-149) -/

namespace AiAgent

/-- `TOP_K = 10` (src/ai_agent.py line 18). -/
def TOP_K : Nat := 10

/-- `multifield_types = ["Multifield", "Tags picker", "Drop down Field"]`
(src/ai_agent.py line 131). -/
def multifield_types : List String := ["Multifield", "Tags picker", "Drop down Field"]

/-- `needs_js = any(f['type'] in multifield_types for f in fields) or
"validation" in user_context.lower()` (src/ai_agent.py line 132). -/
def needs_js (fields : List Field) (user_context : String) : Bool :=
  fields.any (fun f => multifield_types.contains f.type) ||
    pyIn "validation" (pyLower user_context)

/-- `retrieve_targeted_context` of src/ai_agent.py: five targeted queries
inside one `try`; any raised query degrades the whole call to the all-empty
bundle.  The second component records the queries issued (in order), including
those issued before an exception. -/
def retrieve_targeted_context (q : QOracle) (fields : List Field)
    (user_context : String) : Bundle × List IssuedQuery :=
  let types := String.intercalate " " (fields.map (fun f => f.type))
  let dialog_query := "dialog XML structure example granite ui form fields tabs " ++ types
  let log1 := [IssuedQuery.mk Domain.dialog dialog_query TOP_K]
  match q dialog_query TOP_K with
  | Except.error _ => (emptyBundle, log1)
  | Except.ok dialog_docs =>
    let sling_query := "Sling Model Java @Model @ValueMapValue annotations example " ++ types
    let log2 := log1 ++ [IssuedQuery.mk Domain.sling sling_query TOP_K]
    match q sling_query TOP_K with
    | Except.error _ => (emptyBundle, log2)
    | Except.ok sling_docs =>
      let htl_query := "HTL template data-sly-use Sling Model example " ++ types
      let log3 := log2 ++ [IssuedQuery.mk Domain.htl htl_query TOP_K]
      match q htl_query TOP_K with
      | Except.error _ => (emptyBundle, log3)
      | Except.ok htl_docs =>
        let fields_query := "field types examples " ++ types ++ " sling:resourceType granite properties"
        let log4 := log3 ++ [IssuedQuery.mk Domain.fields fields_query TOP_K]
        match q fields_query TOP_K with
        | Except.error _ => (emptyBundle, log4)
        | Except.ok fields_docs =>
          if needs_js fields user_context then
            let js_query := "JavaScript validation example clientlib " ++ types
            let log5 := log4 ++ [IssuedQuery.mk Domain.js js_query 5]
            match q js_query 5 with
            | Except.error _ => (emptyBundle, log5)
            | Except.ok js_docs =>
              (⟨joinDocs dialog_docs, joinDocs sling_docs, joinDocs htl_docs,
                joinDocs js_docs, joinDocs fields_docs⟩, log5)
          else
            (⟨joinDocs dialog_docs, joinDocs sling_docs, joinDocs htl_docs,
              "", joinDocs fields_docs⟩, log4)

end AiAgent

/-! ### Multi-Query Retriever of src/ai_agent_new.py (`retrieve_targeted_context`,
lines 90-164) -/

namespace AiAgentNew

/-- `needs_validation` (src/ai_agent_new.py lines 137-141). -/
def needs_validation (user_context : String) : Bool :=
  pyIn "validation" (pyLower user_context) ||
    pyIn "validate" (pyLower user_context) ||
    pyIn "required" (pyLower user_context)

/-- `retrieve_targeted_context` of src/ai_agent_new.py.  `field_types_set` is
a Python `set`, whose iteration order is unspecified; it is modelled in
first-occurrence order (`eraseDups`) — only the phrasing of one query string
depends on it, which no theorem inspects. -/
def retrieve_targeted_context (q : QOracle) (fields : List Field)
    (user_context : String) : Bundle × List IssuedQuery :=
  let field_types_set := (fields.map (fun f => f.type)).eraseDups
  let field_types_str := String.intercalate " " field_types_set
  let has_multifield := field_types_set.contains "Multifield"
  let contJs := fun (dialog_context sling_context htl_context fields_context : String)
      (log : List IssuedQuery) =>
    if needs_validation user_context || has_multifield then
      let js_query := "JavaScript clientlib validation coral foundation"
      let log5 := log ++ [IssuedQuery.mk Domain.js js_query 3]
      match q js_query 3 with
      | Except.error _ => (emptyBundle, log5)
      | Except.ok js_docs =>
        (⟨dialog_context, sling_context, htl_context, joinDocs js_docs,
          fields_context⟩, log5)
    else
      (⟨dialog_context, sling_context, htl_context, "", fields_context⟩, log)
  let dialog_query := "dialog XML granite ui container tabs items structure"
  let log1 := [IssuedQuery.mk Domain.dialog dialog_query 5]
  match q dialog_query 5 with
  | Except.error _ => (emptyBundle, log1)
  | Except.ok dialog_docs =>
    let sling_query :=
      "Sling Model @Model adaptables DefaultInjectionStrategy @ValueMapValue @Default complete class" ++
        (if has_multifield then " @ChildResource List composite multifield" else "")
    let log2 := log1 ++ [IssuedQuery.mk Domain.sling sling_query 8]
    match q sling_query 8 with
    | Except.error _ => (emptyBundle, log2)
    | Except.ok sling_docs =>
      let htl_query := "HTL data-sly-use model property access syntax"
      let log3 := log2 ++ [IssuedQuery.mk Domain.htl htl_query 5]
      match q htl_query 5 with
      | Except.error _ => (emptyBundle, log3)
      | Except.ok htl_docs =>
        if field_types_str ≠ "" then
          let fields_query := field_types_str ++ " sling:resourceType granite field properties"
          let log4 := log3 ++ [IssuedQuery.mk Domain.fields fields_query 8]
          match q fields_query 8 with
          | Except.error _ => (emptyBundle, log4)
          | Except.ok fields_docs =>
            contJs (joinDocs dialog_docs) (joinDocs sling_docs)
              (joinDocs htl_docs) (joinDocs fields_docs) log4
        else
          contJs (joinDocs dialog_docs) (joinDocs sling_docs)
            (joinDocs htl_docs) "" log3

end AiAgentNew

/-! ### C5: retrieval degradation under a failing Similarity Index -/

theorem retrieveA_error_all_empty (q : QOracle) (fields : List Field)
    (user_context : String) (hq : ∀ t k, ∃ e, q t k = Except.error e) :
    (AiAgent.retrieve_targeted_context q fields user_context).1 = emptyBundle := by
  obtain ⟨e, he⟩ := hq
    ("dialog XML structure example granite ui form fields tabs " ++
      String.intercalate " " (fields.map (fun f => f.type))) AiAgent.TOP_K
  simp [AiAgent.retrieve_targeted_context, he]

theorem retrieveNew_error_all_empty (q : QOracle) (fields : List Field)
    (user_context : String) (hq : ∀ t k, ∃ e, q t k = Except.error e) :
    (AiAgentNew.retrieve_targeted_context q fields user_context).1 = emptyBundle := by
  obtain ⟨e, he⟩ := hq "dialog XML granite ui container tabs items structure" 5
  simp [AiAgentNew.retrieve_targeted_context, he]

/-- C5: if every query against the Similarity Index raises, then (in both
src/ai_agent.py and src/ai_agent_new.py) `retrieve_targeted_context` returns
the bundle in which every domain entry is the empty string.  The embedding is
a total function, so no exception escapes to the caller. -/
theorem claim_C5_retrieval_degradation (q : QOracle) (fields : List Field)
    (user_context : String) (hq : ∀ t k, ∃ e, q t k = Except.error e) :
    (AiAgent.retrieve_targeted_context q fields user_context).1 = emptyBundle ∧
    (AiAgentNew.retrieve_targeted_context q fields user_context).1 = emptyBundle :=
  ⟨retrieveA_error_all_empty q fields user_context hq,
   retrieveNew_error_all_empty q fields user_context hq⟩

/-- Witness for `claim_C5_retrieval_degradation` at the concrete oracle that
always raises, with one concrete field and a concrete context string. -/
theorem claim_C5_witness :
    (AiAgent.retrieve_targeted_context (fun _ _ => Except.error "boom")
      [⟨"Text Field", "title", "Title"⟩] "no requirements").1 = emptyBundle ∧
    (AiAgentNew.retrieve_targeted_context (fun _ _ => Except.error "boom")
      [⟨"Text Field", "title", "Title"⟩] "no requirements").1 = emptyBundle :=
  claim_C5_retrieval_degradation (fun _ _ => Except.error "boom")
    [⟨"Text Field", "title", "Title"⟩] "no requirements"
    (fun _ _ => ⟨"boom", rfl⟩)

/-! ### C7: gating of the auxiliary/validation (JS) domain query -/

theorem mem_eraseDups_loop (as bs : List String) (x : String) :
    x ∈ List.eraseDups.loop as bs ↔ x ∈ as ∨ x ∈ bs.reverse := by
  induction as generalizing bs with
  | nil => simp [List.eraseDups.loop]
  | cons a rest ih =>
    rw [List.eraseDups.loop]
    cases h : bs.elem a with
    | true =>
      simp only [ih]
      have ha : a ∈ bs := by
        have := List.elem_eq_mem a bs
        rw [h] at this
        exact of_decide_eq_true this.symm
      simp only [List.mem_cons, List.mem_reverse] at *
      constructor
      · tauto
      · rintro (h1 | h2) <;> try tauto
        rcases h1 with rfl | h1 <;> tauto
    | false =>
      simp only [ih]
      simp only [List.mem_cons, List.mem_reverse, List.reverse_cons,
        List.mem_append, List.mem_singleton]
      tauto

theorem mem_eraseDups (l : List String) (x : String) :
    x ∈ l.eraseDups ↔ x ∈ l := by
  rw [List.eraseDups, mem_eraseDups_loop]
  simp

theorem eraseDups_contains (l : List String) (a : String) :
    l.eraseDups.contains a = l.contains a := by
  show l.eraseDups.elem a = l.elem a
  rw [List.elem_eq_mem, List.elem_eq_mem, decide_eq_decide]
  exact mem_eraseDups l a

theorem any_ext (l : List Field) (f g : Field → Bool) (h : ∀ x, f x = g x) :
    l.any f = l.any g := by
  induction l with
  | nil => rfl
  | cons a t ih => simp [List.any_cons, h a, ih]

theorem needs_js_spell (fields : List Field) (ctx : String) :
    AiAgent.needs_js fields ctx =
      (fields.any (fun fd => fd.type == "Multifield" || fd.type == "Tags picker" ||
          fd.type == "Drop down Field") || pyIn "validation" (pyLower ctx)) := by
  unfold AiAgent.needs_js
  congr 1
  apply any_ext
  intro x
  simp [AiAgent.multifield_types, Bool.beq_eq_decide_eq, Bool.or_assoc]

theorem retrieveA_js_any (f : String → Nat → List String) (fields : List Field)
    (ctx : String) :
    ((AiAgent.retrieve_targeted_context (fun t k => Except.ok (f t k)) fields ctx).2.any
      (fun iq => iq.domain == Domain.js)) = AiAgent.needs_js fields ctx := by
  by_cases h : AiAgent.needs_js fields ctx = true <;>
    simp [AiAgent.retrieve_targeted_context, h]

theorem retrieveA_js_off (f : String → Nat → List String) (fields : List Field)
    (ctx : String) (h : AiAgent.needs_js fields ctx = false) :
    (AiAgent.retrieve_targeted_context (fun t k => Except.ok (f t k)) fields ctx).1.js_context = "" ∧
    (AiAgent.retrieve_targeted_context (fun t k => Except.ok (f t k)) fields ctx).2.filter
      (fun iq => iq.domain == Domain.js) = [] := by
  constructor <;> simp [AiAgent.retrieve_targeted_context, h]

theorem retrieveNew_js_any (f : String → Nat → List String) (fields : List Field)
    (ctx : String) :
    ((AiAgentNew.retrieve_targeted_context (fun t k => Except.ok (f t k)) fields ctx).2.any
      (fun iq => iq.domain == Domain.js)) =
    (AiAgentNew.needs_validation ctx ||
      (fields.map (fun fd => fd.type)).eraseDups.contains "Multifield") := by
  by_cases hv : AiAgentNew.needs_validation ctx = true <;>
  by_cases hm : "Multifield" ∈ (fields.map (fun fd => fd.type)).eraseDups <;>
  by_cases hf : String.intercalate " " ((fields.map (fun fd => fd.type)).eraseDups) = "" <;>
    simp [AiAgentNew.retrieve_targeted_context, hv, hm, hf]

theorem retrieveNew_js_off (f : String → Nat → List String) (fields : List Field)
    (ctx : String)
    (h : (AiAgentNew.needs_validation ctx ||
      (fields.map (fun fd => fd.type)).eraseDups.contains "Multifield") = false) :
    (AiAgentNew.retrieve_targeted_context (fun t k => Except.ok (f t k)) fields ctx).1.js_context = "" ∧
    (AiAgentNew.retrieve_targeted_context (fun t k => Except.ok (f t k)) fields ctx).2.filter
      (fun iq => iq.domain == Domain.js) = [] := by
  rw [Bool.or_eq_false_iff] at h
  obtain ⟨hv, hm⟩ := h
  have hm' : "Multifield" ∉ (fields.map (fun fd => fd.type)).eraseDups := by
    simpa using hm
  by_cases hf : String.intercalate " " ((fields.map (fun fd => fd.type)).eraseDups) = "" <;>
    constructor <;> simp [AiAgentNew.retrieve_targeted_context, hv, hm', hf]

/-- C7 counterexample: in src/ai_agent.py, with the single field
`{"type": "Tags picker", "name": "tags", "label": "Tags"}` and empty user
context, the JS-domain query IS issued (the query log contains a js-domain
entry) although no composite (Multifield) field is present and the context
does not match the validation keyword — so "issued only if a validation
keyword matches OR a composite field is present" is false. -/
theorem claim_C7_counterexample :
    ((AiAgent.retrieve_targeted_context (fun _ _ => Except.ok [])
        [⟨"Tags picker", "tags", "Tags"⟩] "").2.any
      (fun iq => iq.domain == Domain.js)) = true ∧
    (([⟨"Tags picker", "tags", "Tags"⟩] : List Field).any
      (fun fd => fd.type == "Multifield")) = false ∧
    pyIn "validation" (pyLower "") = false := by
  refine ⟨?_, by decide, by decide⟩
  rw [retrieveA_js_any]
  decide

/-- C7 as amended: with a non-raising Similarity Index, the JS-domain query is
issued exactly when (src/ai_agent.py) some field's type is `Multifield`,
`Tags picker` or `Drop down Field`, or `"validation"` occurs in the lowercased
user context; respectively exactly when (src/ai_agent_new.py) the lowercased
context contains `"validation"`, `"validate"` or `"required"`, or some field's
type is `Multifield`.  When the condition is false, `js_context` is the empty
string and no JS-domain query appears in the query log. -/
theorem claim_C7_amended (f : String → Nat → List String) (fields : List Field)
    (ctx : String) :
    (((AiAgent.retrieve_targeted_context (fun t k => Except.ok (f t k)) fields ctx).2.any
        (fun iq => iq.domain == Domain.js)) =
      (fields.any (fun fd => fd.type == "Multifield" || fd.type == "Tags picker" ||
          fd.type == "Drop down Field") || pyIn "validation" (pyLower ctx))) ∧
    ((fields.any (fun fd => fd.type == "Multifield" || fd.type == "Tags picker" ||
          fd.type == "Drop down Field") || pyIn "validation" (pyLower ctx)) = false →
      (AiAgent.retrieve_targeted_context (fun t k => Except.ok (f t k)) fields ctx).1.js_context = "" ∧
      (AiAgent.retrieve_targeted_context (fun t k => Except.ok (f t k)) fields ctx).2.filter
        (fun iq => iq.domain == Domain.js) = []) ∧
    (((AiAgentNew.retrieve_targeted_context (fun t k => Except.ok (f t k)) fields ctx).2.any
        (fun iq => iq.domain == Domain.js)) =
      (AiAgentNew.needs_validation ctx || fields.any (fun fd => fd.type == "Multifield"))) ∧
    ((AiAgentNew.needs_validation ctx || fields.any (fun fd => fd.type == "Multifield")) = false →
      (AiAgentNew.retrieve_targeted_context (fun t k => Except.ok (f t k)) fields ctx).1.js_context = "" ∧
      (AiAgentNew.retrieve_targeted_context (fun t k => Except.ok (f t k)) fields ctx).2.filter
        (fun iq => iq.domain == Domain.js) = []) := by
  have hmap0 : ∀ l : List Field, ((l.map (fun fd => fd.type)).contains "Multifield") =
      l.any (fun fd => fd.type == "Multifield") := by
    intro l
    induction l with
    | nil => rfl
    | cons a t ih =>
      rw [List.map_cons, List.contains_cons, List.any_cons, ih, Bool.beq_comm]
  have hmap : ((fields.map (fun fd => fd.type)).eraseDups.contains "Multifield") =
      fields.any (fun fd => fd.type == "Multifield") := by
    rw [eraseDups_contains, hmap0]
  refine ⟨?_, ?_, ?_, ?_⟩
  · rw [retrieveA_js_any, needs_js_spell]
  · intro h
    exact retrieveA_js_off f fields ctx (by rw [needs_js_spell]; exact h)
  · rw [retrieveNew_js_any, hmap]
  · intro h
    exact retrieveNew_js_off f fields ctx (by rw [hmap]; exact h)

/-- Witness for `claim_C7_amended` at one concrete field list and context:
a lone Text Field with empty context issues no JS query and leaves
`js_context` empty in both retrievers. -/
theorem claim_C7_witness :
    ((AiAgent.retrieve_targeted_context (fun _ _ => Except.ok [])
        [⟨"Text Field", "title", "Title"⟩] "").1.js_context = "" ∧
      (AiAgent.retrieve_targeted_context (fun _ _ => Except.ok [])
        [⟨"Text Field", "title", "Title"⟩] "").2.filter
        (fun iq => iq.domain == Domain.js) = []) ∧
    ((AiAgentNew.retrieve_targeted_context (fun _ _ => Except.ok [])
        [⟨"Text Field", "title", "Title"⟩] "").1.js_context = "" ∧
      (AiAgentNew.retrieve_targeted_context (fun _ _ => Except.ok [])
        [⟨"Text Field", "title", "Title"⟩] "").2.filter
        (fun iq => iq.domain == Domain.js) = []) := by
  have h := claim_C7_amended (fun _ _ => []) [⟨"Text Field", "title", "Title"⟩] ""
  exact ⟨h.2.1 (by decide), h.2.2.2 (by decide)⟩

/-! ### Prompt Assembler / generator post-processing -/

/-- Python `str.strip()` (ASCII-whitespace-faithful): drop leading and
trailing whitespace. -/
def pyStrip (s : String) : String :=
  String.mk (((s.toList.dropWhile Char.isWhitespace).reverse.dropWhile
    Char.isWhitespace).reverse)

/-- Python `s[:500]`. -/
def pyTake500 (s : String) : String := String.mk (s.toList.take 500)

/-- `parsed.get(key, "")` on the generator's JSON object, modelled as an
association list (Python dict keys are unique; first match wins). -/
def dictGet (d : List (String × String)) (k : String) : String :=
  match d.find? (fun p => p.1 == k) with
  | some p => p.2
  | none => ""

/-- A failure of the generator call: the OpenAI request raising, or
`json.loads` failing on the returned text (which carries the raw output). -/
inductive GenFailure where
  | jsonDecodeError (msg : String) (raw : String)
  | apiError (msg : String)
deriving DecidableEq, Repr

/-- The code generator collaborator: one call with the assembled prompt,
returning the parsed JSON object or a failure. -/
abbrev GenOracle := String → Except GenFailure (List (String × String))

/-- Post-processing of the parsed generator response in src/ai_agent.py
lines 357-371: strip the four fields, then the empty-artifact cascade. -/
def handleParsedA (p : List (String × String)) : String × String × String × String :=
  let dialog := pyStrip (dictGet p "dialog")
  let sling_model := pyStrip (dictGet p "sling_model")
  let htl := pyStrip (dictGet p "htl")
  let js := pyStrip (dictGet p "js_validation")
  if dialog = "" then ("❌ Failed to generate dialog", "", "", "")
  else if sling_model = "" then ("❌ Failed to generate Sling Model", dialog, "", "")
  else if htl = "" then ("❌ Failed to generate HTL", dialog, sling_model, "")
  else (dialog, sling_model, htl, js)

/-- Post-processing of the parsed generator response in src/ai_agent_new_4.py
lines 810-823 (three artifacts, no js slot). -/
def handleParsed4 (p : List (String × String)) : String × String × String :=
  let dialog := pyStrip (dictGet p "dialog")
  let sling_model := pyStrip (dictGet p "sling_model")
  let htl := pyStrip (dictGet p "htl")
  if dialog = "" then ("❌ Failed to generate dialog", "", "")
  else if sling_model = "" then ("❌ Failed to generate Sling Model", dialog, "")
  else if htl = "" then ("❌ Failed to generate HTL", dialog, sling_model)
  else (dialog, sling_model, htl)

/-! ### Multi-Query Retriever of src/ai_agent_new_4.py (lines 89-148):
four domains, no JS query, `user_context` received but unused. -/

/-- The `all_retrieved` dict of src/ai_agent_new_4.py (no `js_context` key). -/
structure Bundle4 where
  dialog_context : String
  sling_context : String
  htl_context : String
  fields_context : String
deriving DecidableEq, Repr

def emptyBundle4 : Bundle4 := ⟨"", "", "", ""⟩

namespace AiAgentNew4

/-- `retrieve_targeted_context` of src/ai_agent_new_4.py.  Python `set`
iteration order modelled in first-occurrence order as before. -/
def retrieve_targeted_context (q : QOracle) (fields : List Field)
    (user_context : String) : Bundle4 × List IssuedQuery :=
  let _ := user_context
  let field_types_set := (fields.map (fun f => f.type)).eraseDups
  let field_types_str := String.intercalate " " field_types_set
  let has_multifield := field_types_set.contains "Multifield"
  let dialog_query := "dialog XML granite ui container tabs items structure"
  let log1 := [IssuedQuery.mk Domain.dialog dialog_query 5]
  match q dialog_query 5 with
  | Except.error _ => (emptyBundle4, log1)
  | Except.ok dialog_docs =>
    let sling_query :=
      "Sling Model @Model adaptables DefaultInjectionStrategy @ValueMapValue @Default complete class" ++
        (if has_multifield then
          " @ChildResource @PostConstruct ValueMap POJO inner class ArrayList multifield composite"
        else "")
    let log2 := log1 ++ [IssuedQuery.mk Domain.sling sling_query 8]
    match q sling_query 8 with
    | Except.error _ => (emptyBundle4, log2)
    | Except.ok sling_docs =>
      let htl_query := "HTL data-sly-use model property access syntax"
      let log3 := log2 ++ [IssuedQuery.mk Domain.htl htl_query 5]
      match q htl_query 5 with
      | Except.error _ => (emptyBundle4, log3)
      | Except.ok htl_docs =>
        if field_types_str ≠ "" then
          let fields_query := field_types_str ++ " sling:resourceType granite field properties"
          let log4 := log3 ++ [IssuedQuery.mk Domain.fields fields_query 8]
          match q fields_query 8 with
          | Except.error _ => (emptyBundle4, log4)
          | Except.ok fields_docs =>
            (⟨joinDocs dialog_docs, joinDocs sling_docs, joinDocs htl_docs,
              joinDocs fields_docs⟩, log4)
        else
          (⟨joinDocs dialog_docs, joinDocs sling_docs, joinDocs htl_docs, ""⟩, log3)

end AiAgentNew4

/-! ### `generate_sling_model_with_rag` -/

/-- Rendering of `json.dumps(fields_list, indent=2)`.  The exact JSON
formatting feeds only the prompt text, which no claim inspects; it is
abbreviated to a deterministic rendering of the same data. -/
def fields_json_render (fields : List Field) : String :=
  String.intercalate ",\n" (fields.map (fun f =>
    "type: " ++ f.type ++ ", name: " ++ f.name ++ ", label: " ++ f.label))

/-- The `full_prompt` f-string of src/ai_agent.py lines 230-329: the long
static instruction prose and the startup-loaded reference files
(`dialog_template`, `sling_mappings`, `htl_snippets`) are abbreviated; the
data interpolations and their `if ... else <fallback>` conditionals are kept. -/
def buildPromptA (fields_json user_context : String) (rag : Bundle) : String :=
  "<AEM code generator instructions> FIELDS TO IMPLEMENT: " ++ fields_json ++
  " USER REQUIREMENTS: " ++
    (if user_context ≠ "" then user_context else "No additional requirements.") ++
  " DIALOG: " ++
    (if rag.dialog_context ≠ "" then rag.dialog_context
     else "No dialog examples found - use standard Granite UI structure") ++
  " FIELD TYPES: " ++
    (if rag.fields_context ≠ "" then rag.fields_context
     else "No field examples found") ++
  " SLING MODEL: " ++
    (if rag.sling_context ≠ "" then rag.sling_context
     else "No sling model examples found") ++
  " HTL: " ++
    (if rag.htl_context ≠ "" then rag.htl_context
     else "No HTL examples found") ++
  " JS VALIDATION: " ++
    (if rag.js_context ≠ "" then rag.js_context
     else "No JS validation examples found - only include if explicitly needed")

/-- `generate_sling_model_with_rag` of src/ai_agent.py (lines 206-376).
Returns the four output slots, the list of similarity queries issued, and the
number of generator calls made. -/
def generateA (q : QOracle) (gen : GenOracle) (fields : List Field)
    (user_context : String) :
    (String × String × String × String) × List IssuedQuery × Nat :=
  if fields.isEmpty then
    (("⚠️ Please add at least one field before generating.", "", "", ""), [], 0)
  else
    let fields_json := fields_json_render fields
    let r := AiAgent.retrieve_targeted_context q fields user_context
    let full_prompt := buildPromptA fields_json user_context r.1
    match gen full_prompt with
    | Except.error (GenFailure.jsonDecodeError e raw) =>
      (("❌ JSON parsing error: " ++ e ++ "\n\nRaw output:\n" ++ pyTake500 raw,
        "", "", ""), r.2, 1)
    | Except.error (GenFailure.apiError e) =>
      (("❌ Error generating code: " ++ e, "", "", ""), r.2, 1)
    | Except.ok parsed => (handleParsedA parsed, r.2, 1)

/-- The tab-mention keyword list of src/ai_agent_new_4.py lines 235-240. -/
def tab_keywords : List String :=
  ["separate tab", "different tab", "another tab", "in a tab",
   "tab with name", "tab name as", "tab named",
   "configuration tab", "content tab", "properties tab",
   "settings tab", "data tab", "additional tab"]

/-- `has_tab_mention = any(keyword in context_lower for ...)`
(src/ai_agent_new_4.py line 235). -/
def has_tab_mention (context_lower : String) : Bool :=
  tab_keywords.any (fun k => pyIn k context_lower)

/-- The `tab_instructions` block of src/ai_agent_new_4.py lines 230-352:
empty unless the context is non-empty and mentions a tab keyword; the block
itself is natural-language prompt prose (including the regex-extracted
candidate tab names), abbreviated here since no claim inspects it. -/
def tab_instructions4 (user_context : String) : String :=
  if user_context ≠ "" && has_tab_mention (pyLower user_context) then
    "<tab organization instructions>"
  else ""

/-- The `multifield_context_note` block of src/ai_agent_new_4.py lines
354-402: empty unless a Multifield field exists and the context is non-empty;
the block is prompt prose, abbreviated. -/
def multifield_note4 (fields : List Field) (user_context : String) : String :=
  if fields.any (fun f => f.type == "Multifield") && user_context ≠ "" then
    "<multifield structure clarification>"
  else ""

/-- The `full_prompt` f-string of src/ai_agent_new_4.py lines 409-782, with
the static prose and startup-loaded reference files abbreviated and the data
interpolations and fallback conditionals kept. -/
def buildPrompt4 (fields_json user_context tabInstr mfNote : String)
    (rag : Bundle4) : String :=
  "<expert AEM developer instructions> Fields to implement: " ++ fields_json ++
  " User requirements: " ++
    (if user_context ≠ "" then user_context
     else "No additional requirements - use standard AEM best practices.") ++
  " " ++ tabInstr ++ " " ++ mfNote ++
  " Dialog Structure Pattern: " ++
    (if rag.dialog_context ≠ "" then rag.dialog_context
     else "Use standard Granite UI container/tabs structure") ++
  " Field Type Examples: " ++
    (if rag.fields_context ≠ "" then rag.fields_context
     else "Use standard Granite UI field types") ++
  " Sling Model Pattern: " ++
    (if rag.sling_context ≠ "" then rag.sling_context
     else "Use @Model with adaptables=Resource.class and @ValueMapValue") ++
  " HTL Pattern: " ++
    (if rag.htl_context ≠ "" then rag.htl_context
     else "Use data-sly-use for model binding")

/-- `generate_sling_model_with_rag` of src/ai_agent_new_4.py (lines 203-831).
Three output slots, the issued-query log, and the generator-call count. -/
def generate4 (q : QOracle) (gen : GenOracle) (fields : List Field)
    (user_context : String) :
    (String × String × String) × List IssuedQuery × Nat :=
  if fields.isEmpty then
    (("⚠️ Please add at least one field before generating.", "", ""), [], 0)
  else
    let fields_json := fields_json_render fields
    let tabInstr := tab_instructions4 user_context
    let mfNote := multifield_note4 fields user_context
    let r := AiAgentNew4.retrieve_targeted_context q fields user_context
    let full_prompt := buildPrompt4 fields_json user_context tabInstr mfNote r.1
    match gen full_prompt with
    | Except.error (GenFailure.jsonDecodeError e raw) =>
      (("❌ JSON parsing error: " ++ e ++ "\n\nRaw output:\n" ++ pyTake500 raw,
        "", ""), r.2, 1)
    | Except.error (GenFailure.apiError e) =>
      (("❌ Error generating code: " ++ e, "", ""), r.2, 1)
    | Except.ok parsed => (handleParsed4 parsed, r.2, 1)

/-! ### `add_field` (src/ai_agent.py lines 174-190) -/

/-- `add_field` over explicit session state: the global `fields_data` list is
passed in and the updated list returned (Python mutates it in place). -/
def add_field (selected_type field_name field_label current_list : String)
    (fields_data : List Field) : String × String × List Field :=
  if field_name = "" || field_label = "" then
    (current_list, "⚠️ Please enter both a field name and label.", fields_data)
  else
    let fields2 := fields_data ++ [⟨selected_type, field_name, field_label⟩]
    let new_entry := "🧩 **" ++ selected_type ++ "** — Label: `" ++ field_label ++
      "`, Name: `" ++ field_name ++ "`"
    let updated_list :=
      if current_list = "### 📋 Fields Added\n_(No fields added yet)_" then
        "### 📋 Fields Added\n\n" ++ new_entry
      else current_list ++ "\n\n" ++ new_entry
    (updated_list, "✅ Added " ++ selected_type ++ " field successfully.", fields2)

/-- C6: the empty-artifact cascade preserves earlier successful artifacts, in
both src/ai_agent.py (lines 363-368) and src/ai_agent_new_4.py (lines
815-820): empty dialog ⇒ everything after the warning is empty; empty Sling
model after a non-empty dialog ⇒ the dialog is returned, the remainder empty;
empty HTL after both ⇒ dialog and Sling model are returned, the remainder
empty. -/
theorem claim_C6_partial_failure (p : List (String × String)) :
    (pyStrip (dictGet p "dialog") = "" →
      handleParsedA p = ("❌ Failed to generate dialog", "", "", "") ∧
      handleParsed4 p = ("❌ Failed to generate dialog", "", "")) ∧
    (pyStrip (dictGet p "dialog") ≠ "" → pyStrip (dictGet p "sling_model") = "" →
      handleParsedA p =
        ("❌ Failed to generate Sling Model", pyStrip (dictGet p "dialog"), "", "") ∧
      handleParsed4 p =
        ("❌ Failed to generate Sling Model", pyStrip (dictGet p "dialog"), "")) ∧
    (pyStrip (dictGet p "dialog") ≠ "" → pyStrip (dictGet p "sling_model") ≠ "" →
      pyStrip (dictGet p "htl") = "" →
      handleParsedA p = ("❌ Failed to generate HTL", pyStrip (dictGet p "dialog"),
        pyStrip (dictGet p "sling_model"), "") ∧
      handleParsed4 p = ("❌ Failed to generate HTL", pyStrip (dictGet p "dialog"),
        pyStrip (dictGet p "sling_model"))) := by
  refine ⟨fun h1 => ?_, fun h1 h2 => ?_, fun h1 h2 h3 => ?_⟩ <;>
    constructor <;> simp [handleParsedA, handleParsed4, *]

/-- Witness for `claim_C6_partial_failure` at three concrete parsed responses,
one per missing artifact. -/
theorem claim_C6_witness :
    handleParsedA [("dialog", "")] = ("❌ Failed to generate dialog", "", "", "") ∧
    handleParsedA [("dialog", "d")] =
      ("❌ Failed to generate Sling Model", "d", "", "") ∧
    handleParsed4 [("dialog", "d"), ("sling_model", "s")] =
      ("❌ Failed to generate HTL", "d", "s") := by
  refine ⟨((claim_C6_partial_failure [("dialog", "")]).1 (by decide)).1, ?_, ?_⟩
  · exact ((claim_C6_partial_failure [("dialog", "d")]).2.1 (by decide) (by decide)).1
  · exact ((claim_C6_partial_failure [("dialog", "d"), ("sling_model", "s")]).2.2
      (by decide) (by decide) (by decide)).2

/-- C9: invoking generation with an empty FieldSpec list surfaces the warning
immediately with every other output empty, issues no similarity query, and
never calls the code generator — in both src/ai_agent.py (lines 210-211) and
src/ai_agent_new_4.py (lines 207-208). -/
theorem claim_C9_no_fields (q : QOracle) (gen : GenOracle) (ctx : String) :
    generateA q gen [] ctx =
      (("⚠️ Please add at least one field before generating.", "", "", ""), [], 0) ∧
    generate4 q gen [] ctx =
      (("⚠️ Please add at least one field before generating.", "", ""), [], 0) :=
  ⟨rfl, rfl⟩

/-- C10: `add_field` with an empty field name or empty label leaves the
session field list unchanged, returns the displayed list as-is, and returns
the warning message instead of a success message
(src/ai_agent.py lines 174-190). -/
theorem claim_C10_add_field_guard
    (selected_type field_name field_label current_list : String)
    (fields_data : List Field) (h : field_name = "" ∨ field_label = "") :
    add_field selected_type field_name field_label current_list fields_data =
      (current_list, "⚠️ Please enter both a field name and label.", fields_data) := by
  rcases h with h | h <;> simp [add_field, h]

/-- Witness for `claim_C10_add_field_guard` at a concrete call with an empty
field name. -/
theorem claim_C10_witness :
    add_field "Text Field" "" "Title" "list shown" [] =
      ("list shown", "⚠️ Please enter both a field name and label.", []) :=
  claim_C10_add_field_guard "Text Field" "" "Title" "list shown" [] (Or.inl rfl)

end AEMAgent
